import Mathlib

/-
Verification of the wtg-seal code emitter (src/wtgseal/maker.py).

The module builds blocks of (indentation level, text) pairs and writes them
to a file.  Python runtime values are modelled by the inductive PyVal so that
the dynamic type checks of the source (a comparison of the exact type with
int, and isinstance checks for list and Path) can be stated faithfully: in
Python, bool is a distinct type from int even though it is an int subtype,
so the exact-type comparison rejects booleans.
-/

namespace Wtgseal

/-- Model of a Python runtime value, with one constructor per concrete type
the module can receive: int, bool, str, list, tuple, pathlib.Path and None.
bool is a separate constructor because its Python type object differs from
int, which is what the exact-type comparison in setup_blank_line observes. -/
inductive PyVal : Type where
  | vint (n : Int)
  | vbool (b : Bool)
  | vstr (s : String)
  | vlist (xs : List PyVal)
  | vtuple (xs : List PyVal)
  | vpath (p : String)
  | vnone

/-- A Python value is a sequence type (list, tuple or str). -/
def PyVal.isSeq : PyVal → Bool
  | .vlist _ => true
  | .vtuple _ => true
  | .vstr _ => true
  | _ => false

/-- CmdDef = Tuple[int, str] from the source. -/
abbrev CmdDef := Int × String

/-- BlockDef = List[CmdDef] from the source. -/
abbrev BlockDef := List CmdDef

/-- Python string repetition: s * n is s repeated n times, and the empty
string whenever n is not positive. -/
def pyStrMul (s : String) : Int → String
  | Int.ofNat n => String.join (List.replicate n s)
  | Int.negSucc _ => ""

/-- Python list repetition: xs * n is xs repeated n times, and the empty
list whenever n is not positive. -/
def pyListMul {α : Type} (xs : List α) : Int → List α
  | Int.ofNat n => (List.replicate n xs).flatten
  | Int.negSucc _ => []

/-- cmddef_to_str from the source: indentby * level + cmd + a newline.
The default indentby is four spaces. -/
def cmddef_to_str (cmddef : CmdDef) (indentby : String := "    ") : String :=
  pyStrMul indentby cmddef.1 ++ cmddef.2 ++ "\n"

/-- The block built by setup_blank_line once the type check has passed:
the Python expression [(0, empty)] * n. -/
def blank_block (n : Int) : BlockDef :=
  pyListMul [((0 : Int), "")] n

/-- setup_blank_line from the source.  The guard is the Python test
type(n) != int, which only the exact type int passes: every other value,
booleans included, raises TypeError. -/
def setup_blank_line (n : PyVal := .vint 1) : Except String BlockDef :=
  match n with
  | .vint m => .ok (blank_block m)
  | _ => .error "n must be an integer"

/-- setup_import from the source: the two fixed import lines. -/
def setup_import : BlockDef :=
  [((0 : Int), "from locust import HttpLocust, TaskSet, task"),
   ((0 : Int), "from scipy.stats import pareto")]

mutual

/-- Python repr of a modelled value, used for elements rendered inside a
container by an f-string. -/
def pyRepr : PyVal → String
  | .vint n => toString n
  | .vbool b => cond b "True" "False"
  | .vstr s => "'" ++ s ++ "'"
  | .vlist xs => "[" ++ pyReprList xs ++ "]"
  | .vtuple xs => "(" ++ pyReprList xs ++ ")"
  | .vpath p => "PosixPath('" ++ p ++ "')"
  | .vnone => "None"

/-- Comma-separated reprs of the elements of a container. -/
def pyReprList : List PyVal → String
  | [] => ""
  | [x] => pyRepr x
  | x :: xs => pyRepr x ++ ", " ++ pyReprList xs

end

/-- Python str of a modelled value, as interpolated by an f-string: a str
is inserted verbatim, other values through their textual form. -/
def pyStr : PyVal → String
  | .vstr s => s
  | .vpath p => p
  | v => pyRepr v

/-- setup_task from the source: an isinstance list check on uri, then the
decorator line, the def line and one GET line per element of uri. -/
def setup_task (name : String := "task0") (weight : Int := 1)
    (uri : PyVal := .vlist [.vstr "/"]) (indlevel : Int := 0) :
    Except String BlockDef :=
  match uri with
  | .vlist xs =>
      .ok ([(indlevel, "@task(" ++ toString weight ++ ")"),
            (indlevel, "def " ++ name ++ "(self):")] ++
           xs.map (fun req =>
             (indlevel + 1, "self.client.get(\"" ++ pyStr req ++ "\")")))
  | _ => .error "Parameter uri should be a list"

/-- setup_taskset from the source: a single class-declaration line. -/
def setup_taskset (name : String := "MyTaskSet") : BlockDef :=
  [((0 : Int), "class " ++ name ++ "(TaskSet):")]

/-- setup_locust from the source: five class lines, one blank line from
setup_blank_line with its default argument, then the wait_time method. -/
def setup_locust (name : String := "MyLocust") (taskset : String := "MyTaskSet")
    (weight : Int := 1) (indlevel : Int := 0) : BlockDef :=
  [(indlevel, "class " ++ name ++ "(HttpLocust):"),
   (indlevel + 1, "weight = " ++ toString weight),
   (indlevel + 1, "task_set = " ++ taskset),
   (indlevel + 1, "pareto_obj = pareto(b=1.4, scale=1)"),
   (indlevel + 1, "pareto_obj.random_state = 1")]
  ++ blank_block 1
  ++ [(indlevel + 1, "def wait_time(self):"),
      (indlevel + 2, "return self.pareto_obj.rvs()")]

/-- The file system, as a map from path strings to file contents. -/
abbrev FS := String → Option String

/-- Tuple unpacking plus the arithmetic inside cmddef_to_str when applied to
a dynamic element of filedef: only a pair of an int level (a bool also
multiplies a string, as an int subtype) and a str body renders; anything
else raises. -/
def pyUnpackCmd : PyVal → Except String CmdDef
  | .vtuple [.vint l, .vstr s] => .ok (l, s)
  | .vtuple [.vbool b, .vstr s] => .ok (cond b 1 0, s)
  | .vlist [.vint l, .vstr s] => .ok (l, s)
  | .vlist [.vbool b, .vstr s] => .ok (cond b 1 0, s)
  | _ => .error "TypeError"

/-- The write loop of write_locust: each element is rendered through
cmddef_to_str and appended to the text written so far; a malformed element
stops the loop with the text written up to that point. -/
def pyWriteLoop (indentby : String) (acc : String) :
    List PyVal → String × Option String
  | [] => (acc, none)
  | c :: cs =>
      match pyUnpackCmd c with
      | .ok lc => pyWriteLoop indentby (acc ++ cmddef_to_str lc indentby) cs
      | .error e => (acc, some e)

/-- write_locust from the source: an isinstance Path check on path, an
isinstance list check on filedef, then the file at path is opened for
writing (truncated) and every element is rendered and written in order.
The result is the file system after the call together with the raised
error, if any; on a type-check failure the file system is untouched. -/
def write_locust (fs : FS) (path : PyVal) (filedef : PyVal)
    (indentby : String := "    ") : FS × Option String :=
  match path with
  | .vpath p =>
      match filedef with
      | .vlist xs =>
          ((fun q => if q = p then some (pyWriteLoop indentby "" xs).1 else fs q),
           (pyWriteLoop indentby "" xs).2)
      | _ => (fs, some "Expected a list of tuples")
  | _ => (fs, some "Expected a pathlib.Path object")

/-- A BlockDef as the Python list of pairs passed to write_locust. -/
def blockToPy (b : BlockDef) : PyVal :=
  .vlist (b.map fun c => .vtuple [.vint c.1, .vstr c.2])

/-- The concatenation, in order, of the rendered lines of a block. -/
def concatLines (b : BlockDef) (indentby : String) : String :=
  match b with
  | [] => ""
  | c :: cs => cmddef_to_str c indentby ++ concatLines cs indentby

lemma flatten_replicate_singleton {α : Type} (n : Nat) (a : α) :
    (List.replicate n [a]).flatten = List.replicate n a := by
  induction n with
  | zero => rfl
  | succ m ih => simp [List.replicate_succ, ih]

/-- C5: for every non-negative level, every text and every indent unit,
cmddef_to_str returns the indent unit repeated level times, then the text,
then a newline; Render Line(2, "x", two spaces) is four spaces, x, newline;
and the indent unit defaults to four spaces. -/
theorem cmddef_to_str_render (level : Nat) (text indentby : String) :
    cmddef_to_str ((level : Int), text) indentby
      = String.join (List.replicate level indentby) ++ text ++ "\n"
    ∧ cmddef_to_str ((2 : Int), "x") "  " = "    x\n"
    ∧ cmddef_to_str ((1 : Int), "x") = "    x\n" :=
  ⟨rfl, rfl, rfl⟩

/-- C6: for every non-negative integer n, setup_blank_line on the int n
returns a block of exactly n records, every one of them (0, empty). -/
theorem setup_blank_line_count (n : Nat) :
    setup_blank_line (.vint (n : Int)) = .ok (List.replicate n ((0 : Int), "")) := by
  show Except.ok ((List.replicate n [((0 : Int), "")]).flatten) = _
  rw [flatten_replicate_singleton]

/-- C3 counterexample: setup_blank_line(-1) does not raise; the type check
only compares types, so the int -1 passes it and the call returns the empty
block, contradicting the claim that -1 fails with InvalidArgument. -/
theorem setup_blank_line_neg_one_ok :
    setup_blank_line (.vint (-1)) = .ok [] := rfl

/-- C3 amended: setup_blank_line fails with a type error exactly when its
argument is not of the exact type int; any int, -1 included, is accepted. -/
theorem setup_blank_line_type_only (v : PyVal) :
    (∃ e, setup_blank_line v = .error e) ↔ ∀ n : Int, v ≠ .vint n := by
  cases v with
  | vint m =>
      refine iff_of_false ?_ ?_
      · rintro ⟨e, he⟩
        exact nomatch he
      · intro h
        exact absurd rfl (h m)
  | vbool b => exact iff_of_true ⟨_, rfl⟩ (fun _ h => nomatch h)
  | vstr s => exact iff_of_true ⟨_, rfl⟩ (fun _ h => nomatch h)
  | vlist xs => exact iff_of_true ⟨_, rfl⟩ (fun _ h => nomatch h)
  | vtuple xs => exact iff_of_true ⟨_, rfl⟩ (fun _ h => nomatch h)
  | vpath p => exact iff_of_true ⟨_, rfl⟩ (fun _ h => nomatch h)
  | vnone => exact iff_of_true ⟨_, rfl⟩ (fun _ h => nomatch h)

/-- C3 witness: the amended theorem applied to the string "1", which is not
an int and therefore makes setup_blank_line raise. -/
theorem setup_blank_line_type_only_witness :
    ∃ e, setup_blank_line (.vstr "1") = .error e :=
  (setup_blank_line_type_only (.vstr "1")).mpr (fun _ h => nomatch h)

/-- C10: setup_blank_line raises its type error on both booleans, because
the validation compares the exact type of the argument with int and the
type bool is distinct from int. -/
theorem setup_blank_line_bool_raises :
    setup_blank_line (.vbool true) = .error "n must be an integer"
    ∧ setup_blank_line (.vbool false) = .error "n must be an integer" :=
  ⟨rfl, rfl⟩

/-- C9: for every name, taskset, weight and indent level, setup_locust
returns exactly 8 records, and the sixth record is (0, empty) at absolute
level 0, independent of the supplied indent level. -/
theorem setup_locust_eight_lines (name taskset : String) (w ind : Int) :
    (setup_locust name taskset w ind).length = 8
    ∧ (setup_locust name taskset w ind).get? 5 = some ((0 : Int), "") :=
  ⟨rfl, rfl⟩

/-- C8: for every name, taskset, weight and indent level, the setup_locust
block contains the Pareto construction line with shape 1.4 and scale 1, the
line setting the random state to 1, and the wait_time method whose body
returns a sample of that distribution. -/
theorem setup_locust_pareto_lines (name taskset : String) (w ind : Int) :
    (setup_locust name taskset w ind).get? 3
      = some (ind + 1, "pareto_obj = pareto(b=1.4, scale=1)")
    ∧ (setup_locust name taskset w ind).get? 4
      = some (ind + 1, "pareto_obj.random_state = 1")
    ∧ (setup_locust name taskset w ind).get? 6
      = some (ind + 1, "def wait_time(self):")
    ∧ (setup_locust name taskset w ind).get? 7
      = some (ind + 2, "return self.pareto_obj.rvs()") :=
  ⟨rfl, rfl, rfl, rfl⟩

lemma get?_map_of_lt {α β : Type} (f : α → β) (l : List α) (i : Nat)
    (h : i < l.length) :
    (l.map f).get? i = some (f (l.get ⟨i, h⟩)) := by
  have hm : (l.map f).get? i = (l.get? i).map f := by
    simp [List.get?_eq_getElem?]
  rw [hm, List.get?_eq_get h]
  rfl

/-- C2: for every name, weight, list of URIs and indent level, setup_task
returns exactly 2 + len(uris) records: the decorator line carrying the
weight and the def line naming the method, both at the given level, then
one GET line per URI in order, each holding the URI verbatim, one level
deeper. -/
theorem setup_task_shape (name : String) (weight : Int) (uris : List String)
    (ind : Int) :
    ∃ b : BlockDef, setup_task name weight (.vlist (uris.map PyVal.vstr)) ind = .ok b
      ∧ b.length = 2 + uris.length
      ∧ b.get? 0 = some (ind, "@task(" ++ toString weight ++ ")")
      ∧ b.get? 1 = some (ind, "def " ++ name ++ "(self):")
      ∧ ∀ i : Nat, ∀ h : i < uris.length,
          b.get? (i + 2)
            = some (ind + 1, "self.client.get(\"" ++ uris.get ⟨i, h⟩ ++ "\")") := by
  refine ⟨_, rfl, ?_, rfl, rfl, ?_⟩
  · simp [List.length_append, List.length_map]
    omega
  · intro i h
    show ((uris.map PyVal.vstr).map
      (fun req => (ind + 1, "self.client.get(\"" ++ pyStr req ++ "\")"))).get? i = _
    rw [List.map_map, get?_map_of_lt _ uris i h]
    rfl

/-- C2 witness: setup_task on name t1, weight 2, the URI list with /a and
/b, and level 0 yields 4 records with the two GET lines at level 1. -/
theorem setup_task_shape_witness :
    ∃ b : BlockDef, setup_task "t1" 2 (.vlist [.vstr "/a", .vstr "/b"]) 0 = .ok b
      ∧ b.length = 2 + 2
      ∧ b.get? (0 + 2) = some (0 + 1, "self.client.get(\"" ++ "/a" ++ "\")")
      ∧ b.get? (1 + 2) = some (0 + 1, "self.client.get(\"" ++ "/b" ++ "\")") := by
  obtain ⟨b, hb, hl, h0, h1, hg⟩ := setup_task_shape "t1" 2 ["/a", "/b"] 0
  exact ⟨b, hb, hl, hg 0 (by decide), hg 1 (by decide)⟩

/-- C4 counterexample: a tuple is a sequence type, yet setup_task raises on
it, so it is false that every sequence value is accepted. -/
theorem setup_task_tuple_raises :
    PyVal.isSeq (.vtuple [.vstr "/a"]) = true
    ∧ setup_task "t1" 2 (.vtuple [.vstr "/a"]) 0
        = .error "Parameter uri should be a list" :=
  ⟨rfl, rfl⟩

/-- C4 amended: setup_task raises exactly when uri is not a list; only list
values are accepted, and other sequence values such as tuples and strings
are rejected like any non-sequence. -/
theorem setup_task_list_only (name : String) (w : Int) (uri : PyVal) (ind : Int) :
    (∃ e, setup_task name w uri ind = .error e)
      ↔ ∀ xs : List PyVal, uri ≠ .vlist xs := by
  cases uri with
  | vlist xs =>
      refine iff_of_false ?_ ?_
      · rintro ⟨e, he⟩
        exact nomatch he
      · intro h
        exact absurd rfl (h xs)
  | vint n => exact iff_of_true ⟨_, rfl⟩ (fun _ h => nomatch h)
  | vbool b => exact iff_of_true ⟨_, rfl⟩ (fun _ h => nomatch h)
  | vstr s => exact iff_of_true ⟨_, rfl⟩ (fun _ h => nomatch h)
  | vtuple xs => exact iff_of_true ⟨_, rfl⟩ (fun _ h => nomatch h)
  | vpath p => exact iff_of_true ⟨_, rfl⟩ (fun _ h => nomatch h)
  | vnone => exact iff_of_true ⟨_, rfl⟩ (fun _ h => nomatch h)

/-- C4 witness: the amended theorem applied to a string uri, which is not a
list and therefore makes setup_task raise. -/
theorem setup_task_list_only_witness :
    ∃ e, setup_task "t1" 2 (.vstr "/a") 0 = .error e :=
  (setup_task_list_only "t1" 2 (.vstr "/a") 0).mpr (fun _ h => nomatch h)

lemma pyWriteLoop_block (ind acc : String) (b : BlockDef) :
    pyWriteLoop ind acc (b.map fun c => PyVal.vtuple [.vint c.1, .vstr c.2])
      = (acc ++ concatLines b ind, none) := by
  induction b generalizing acc with
  | nil => simp [pyWriteLoop, concatLines]
  | cons c cs ih =>
      show pyWriteLoop ind (acc ++ cmddef_to_str (c.1, c.2) ind)
          (cs.map fun c => PyVal.vtuple [.vint c.1, .vstr c.2]) = _
      rw [ih]
      simp [concatLines, String.append_assoc]

/-- C1: for every file system, path, block of records and indent unit, a
call of write_locust on the path and the block succeeds, and afterwards the
file at the path holds exactly the concatenation, in block order, of
cmddef_to_str over the records, whatever the file held before. -/
theorem write_locust_roundtrip (fs : FS) (p : String) (b : BlockDef)
    (ind : String) :
    (write_locust fs (.vpath p) (blockToPy b) ind).2 = none
    ∧ (write_locust fs (.vpath p) (blockToPy b) ind).1 p
        = some (concatLines b ind) := by
  have h := pyWriteLoop_block ind "" b
  constructor
  · show (pyWriteLoop ind "" (b.map fun c => PyVal.vtuple [.vint c.1, .vstr c.2])).2 = none
    rw [h]
  · show (if p = p
        then some (pyWriteLoop ind ""
          (b.map fun c => PyVal.vtuple [.vint c.1, .vstr c.2])).1
        else fs p) = some (concatLines b ind)
    rw [if_pos rfl, h]
    simp

/-- C7: whenever the path argument is not a Path value or the filedef
argument is not a sequence, write_locust raises and leaves the whole file
system unchanged, the file at the path included. -/
theorem write_locust_invalid_args (fs : FS) (path filedef : PyVal)
    (ind : String)
    (h : (∀ q : String, path ≠ .vpath q) ∨ filedef.isSeq = false) :
    (∃ e, (write_locust fs path filedef ind).2 = some e)
    ∧ (write_locust fs path filedef ind).1 = fs := by
  cases path with
  | vpath p =>
      rcases h with h | h
      · exact absurd rfl (h p)
      · cases filedef with
        | vlist xs => exact nomatch h
        | vint n => exact ⟨⟨_, rfl⟩, rfl⟩
        | vbool b => exact ⟨⟨_, rfl⟩, rfl⟩
        | vstr s => exact ⟨⟨_, rfl⟩, rfl⟩
        | vtuple xs => exact ⟨⟨_, rfl⟩, rfl⟩
        | vpath q => exact ⟨⟨_, rfl⟩, rfl⟩
        | vnone => exact ⟨⟨_, rfl⟩, rfl⟩
  | vint n => exact ⟨⟨_, rfl⟩, rfl⟩
  | vbool b => exact ⟨⟨_, rfl⟩, rfl⟩
  | vstr s => exact ⟨⟨_, rfl⟩, rfl⟩
  | vlist xs => exact ⟨⟨_, rfl⟩, rfl⟩
  | vtuple xs => exact ⟨⟨_, rfl⟩, rfl⟩
  | vnone => exact ⟨⟨_, rfl⟩, rfl⟩

/-- C7 witness: write_locust on an int path and a list block raises and
leaves the empty file system unchanged. -/
theorem write_locust_invalid_args_witness :
    (∃ e, (write_locust (fun _ => none) (.vint 0) (.vlist []) "    ").2 = some e)
    ∧ (write_locust (fun _ => none) (.vint 0) (.vlist []) "    ").1
        = (fun _ => none) :=
  write_locust_invalid_args (fun _ => none) (.vint 0) (.vlist []) "    "
    (Or.inl (fun _ hq => nomatch hq))

end Wtgseal
